import Mathlib

/-!
Verification development for the flask-apify extension
(`src/flaskext/apify/fy.py`, `src/flaskext/apify/exc.py`, `src/tests/test_apify.py`).

The Python code is shallowly embedded: the request-scoped globals `g` become an
explicit `Ctx` record threaded through the pipeline, Python exceptions become
`Except Exc`, Python dicts become association lists with last-write-wins update,
and the class-attribute semantics of `Apify.serializers` is modelled with a small
heap of dict objects addressed by references.

The repository imports `flaskext.apify.serializers` and `flaskext.apify.utils`,
whose files are not present under `src/`; the functions taken from those modules
(`to_json`, `to_debug`, `get_serializer`, `get_default_serializer`,
`unpack_response`) are modelled from the spec, each marked in its doc comment.
-/

set_option autoImplicit false

namespace Apifyfy

/-- JSON-like payload values returned by API views and produced by the error
translator. -/
inductive Json where
  | null : Json
  | str : String → Json
  | num : Int → Json
  | obj : List (String × Json) → Json

mutual

/-- Modelled from the spec: the JSON wire encoding used by the serializer in the
absent `serializers.py`. Only its existence as a concrete function matters for
the claims; the exact string format is irrelevant to every theorem below. -/
def jsonEncode : Json → String
  | Json.null => "null"
  | Json.str s => "\"" ++ s ++ "\""
  | Json.num n => toString n
  | Json.obj kvs => "\x7b" ++ jsonEncodeFields kvs ++ "\x7d"

def jsonEncodeFields : List (String × Json) → String
  | [] => ""
  | (k, v) :: rest =>
      "\"" ++ k ++ "\": " ++ jsonEncode v ++
        (if rest.isEmpty then "" else ", ") ++ jsonEncodeFields rest

end

/-- A serializer converts an in-memory payload into a wire-format body
(spec glossary). -/
abbrev Serializer := Json → String

/-- The serializer registry: a Python dict from mimetype to serializer function,
embedded as an association list with first-match lookup. -/
abbrev Registry := List (String × Serializer)

/-- Python `d[k]` lookup on the embedded dict. -/
def dictGet {α : Type} (d : List (String × α)) (k : String) : Option α :=
  match d with
  | [] => none
  | (k', v) :: rest => if k' = k then some v else dictGet rest k

/-- Python `d[k] = v` on the embedded dict: overwrites the entry for `k` when
present, appends otherwise. -/
def dictSet {α : Type} (d : List (String × α)) (k : String) (v : α) :
    List (String × α) :=
  match d with
  | [] => [(k, v)]
  | (k', v') :: rest =>
      if k' = k then (k, v) :: rest else (k', v') :: dictSet rest k v

/-- An instance of (a subclass of) `ApiError` from `exc.py`: a class name, the
HTTP status name, a numeric code and a human-readable description. -/
structure ApiErr where
  cls : String
  name : String
  code : Nat
  description : String
  deriving DecidableEq, Repr

/-- Python exceptions that the pipeline can observe: `ApiError` instances,
`RuntimeError` (fatal configuration error), `AssertionError` (decoration-time
assert) and attribute errors. -/
inductive Exc where
  | api : ApiErr → Exc
  | runtime : String → Exc
  | assertion : String → Exc
  | attrError : String → Exc
  deriving DecidableEq, Repr

/-- Membership in the `ApiError` hierarchy: the designated catch-set that
`Apify.route` passes to `catch_errors`. -/
def isApiError : Exc → Bool
  | Exc.api _ => true
  | _ => false

/-- `ApiNotAcceptable` from `exc.py`: code 406. -/
def apiNotAcceptable : ApiErr :=
  { cls := "ApiNotAcceptable"
  , name := "Not Acceptable"
  , code := 406
  , description :=
      "The application API cannot generate response in format " ++
      "accepted by client according to the accept headers send " ++
      "in the request." }

/-- `ApiUnauthorized` from `exc.py`: code 401. -/
def apiUnauthorized : ApiErr :=
  { cls := "ApiUnauthorized"
  , name := "Unauthorized"
  , code := 401
  , description :=
      "The server could not verify that you are authorized to access the " ++
      "requested URL." }

/-- Response headers. -/
abbrev Headers := List (String × String)

/-- A built HTTP response: serialized body, status code, headers and the
content-type mimetype (`flask.Response` as used by `send_api_response`). -/
structure Resp where
  body : String
  status_code : Nat
  headers : Headers
  mimetype : String

/-- The three return shapes a view may produce: bare payload,
`(payload, code)` or `(payload, code, headers)`. -/
inductive RawResponse where
  | bare : Json → RawResponse
  | withCode : Json → Nat → RawResponse
  | withCodeHeaders : Json → Nat → Headers → RawResponse

/-- The request-scoped globals `g.api_mimetype` / `g.api_serializer`,
unset (`none`) until `preprocess_api_response` assigns them. -/
structure Ctx where
  g_mimetype : Option String
  g_serializer : Option Serializer

/-- The empty per-request context at the start of pipeline execution. -/
def Ctx.empty : Ctx := { g_mimetype := none, g_serializer := none }

/-- A view function: calling it either returns a raw response or raises. -/
abbrev View := Unit → Except Exc RawResponse

/-- The dynamic environment a preprocessor reads at call time: the extension's
serializer registry (`_apify.serializers`), the configured default mimetype
(`APIFY_DEFAULT_MIMETYPE`) and the best accept-header mimetype computed by
werkzeug (`request.accept_mimetypes.best`, `none` when no usable Accept header
is present). -/
structure Env where
  registry : Registry
  default_mimetype : String
  accept_best : Option String

/-- A preprocessor: a view decorator that may read the environment, mutate the
request context and raise; mutations to `g` survive a raise, so the context is
returned on both branches. -/
abbrev PreFn := Env → Ctx → View → Ctx × Except Exc View

/-- A finalizer: transforms the built response or raises. -/
abbrev FinFn := Resp → Except Exc Resp

/-- Modelled from the spec: `to_json` from the absent `serializers.py`; the
JSON serializer seeded for `application/json` and `application/javascript`. -/
def to_json : Serializer := jsonEncode

/-- Modelled from the spec: `to_debug` from the absent `serializers.py`; the
debug-dump serializer seeded for `text/html`, rendering an HTML debug view. -/
def to_debug : Serializer := fun j => "<!doctype html><pre>" ++ jsonEncode j ++ "</pre>"

/-- The class-level seed of `Apify.serializers` (`fy.py` lines 58-63). -/
def class_serializers_seed : Registry :=
  [ ("text/html", to_debug)
  , ("application/json", to_json)
  , ("application/javascript", to_json) ]

/-- Modelled from the spec: `get_serializer` from the absent `serializers.py`.
Per spec section 4.1, `lookup(mimetype)` returns `(mimetype, fn)` if present and
fails with a NotAcceptable condition if absent; per section 4.2 an absent accept
header yields no usable mimetype and likewise fails with NotAcceptable. -/
def get_serializer (reg : Registry) (mimetype : Option String) :
    Except Exc (String × Serializer) :=
  match mimetype with
  | none => Except.error (Exc.api apiNotAcceptable)
  | some m =>
      match dictGet reg m with
      | some fn => Except.ok (m, fn)
      | none => Except.error (Exc.api apiNotAcceptable)

/-- Modelled from the spec: `get_default_serializer` from the absent
`serializers.py`. Per spec section 4.1 it reads the configured default mimetype
and returns its `(mimetype, fn)`, failing with a fatal configuration error (a
`RuntimeError`, distinct from the client-facing NotAcceptable) when the default
mimetype has no registered serializer; the RuntimeError kind is confirmed by
`test_apify_get_default_serializer_may_raise_error_if_nosuch_serializer`. -/
def get_default_serializer (reg : Registry) (default_mimetype : String) :
    Except Exc (String × Serializer) :=
  match dictGet reg default_mimetype with
  | some fn => Except.ok (default_mimetype, fn)
  | none => Except.error (Exc.runtime "no serializer registered for default mimetype")

/-- Modelled from the spec: `unpack_response` from the absent `utils.py`.
Per spec section 4.3 it normalizes a view return value to
`(payload, status, headers)`, defaulting status to 200 and headers to empty. -/
def unpack_response : RawResponse → Json × Nat × Headers
  | RawResponse.bare p => (p, 200, [])
  | RawResponse.withCode p c => (p, c, [])
  | RawResponse.withCodeHeaders p c h => (p, c, h)

/-- `preprocess_api_response` (`fy.py` lines 271-284): resolve the best
serializer for the request and store it in `g`; on `ApiNotAcceptable` (the only
error `get_serializer` raises) store the default pair instead and re-raise the
original error. If `get_default_serializer` itself raises, `g` is left
untouched and that error propagates instead. -/
def preprocess_api_response : PreFn := fun env ctx fn =>
  match get_serializer env.registry env.accept_best with
  | Except.ok (m, s) =>
      ({ g_mimetype := some m, g_serializer := some s }, Except.ok fn)
  | Except.error exc =>
      match get_default_serializer env.registry env.default_mimetype with
      | Except.ok (m, s) =>
          ({ g_mimetype := some m, g_serializer := some s }, Except.error exc)
      | Except.error e2 => (ctx, Except.error e2)

/-- `send_api_response` (`fy.py` lines 292-301): unpack the raw value and build
a `Response` whose body is the serialized payload and whose mimetype comes from
`g`; reading an unset `g` attribute raises. -/
def send_api_response (ctx : Ctx) (raw : RawResponse) : Except Exc Resp :=
  let unpacked := unpack_response raw
  match ctx.g_mimetype, ctx.g_serializer with
  | some m, some s =>
      Except.ok
        { body := s unpacked.1
        , status_code := unpacked.2.1
        , headers := unpacked.2.2
        , mimetype := m }
  | _, _ => Except.error (Exc.attrError "g has no attribute api_serializer")

/-- The error payload built by `send_api_error`. -/
def error_payload (a : ApiErr) : Json :=
  Json.obj [("error", Json.str a.name), ("message", Json.str a.description)]

/-- `send_api_error` (`fy.py` lines 304-313): wrap the error name and
description in a payload and send it through `send_api_response` with the
error's code as status. -/
def send_api_error (ctx : Ctx) (a : ApiErr) : Except Exc Resp :=
  send_api_response ctx (RawResponse.withCode (error_payload a) a.code)

/-- `apply_all` (`fy.py` lines 249-257) at pure functions: the loop
`for func in funcs: arg = func(arg)`. -/
def apply_all {α : Type} (funcs : List (α → α)) (arg : α) : α :=
  match funcs with
  | [] => arg
  | f :: fs => apply_all fs (f arg)

/-- `apply_all` at preprocessor type: the same loop when each function may
consult the environment, mutate `g` and raise; the first raise aborts the loop
with the context mutated so far. -/
def apply_all_pre (funcs : List PreFn) (env : Env) (ctx : Ctx) (arg : View) :
    Ctx × Except Exc View :=
  match funcs with
  | [] => (ctx, Except.ok arg)
  | f :: fs =>
      match f env ctx arg with
      | (ctx', Except.ok arg') => apply_all_pre fs env ctx' arg'
      | (ctx', Except.error e) => (ctx', Except.error e)

/-- `apply_all` at finalizer type: the same loop on the response object when
each function may raise. -/
def apply_all_fin (funcs : List FinFn) (arg : Resp) : Except Exc Resp :=
  match funcs with
  | [] => Except.ok arg
  | f :: fs =>
      match f arg with
      | Except.ok arg' => apply_all_fin fs arg'
      | Except.error e => Except.error e

/-- The `except errors as exc: return send_api_error(exc)` clause of the
wrapper in `catch_errors`: an exception in the catch-set is translated by
`send_api_error` (which reads `exc.name`, so a caught non-`ApiError` would
raise an attribute error); any other exception propagates. -/
def handle_error (errors : List (Exc → Bool)) (ctx : Ctx) (e : Exc) :
    Ctx × Except Exc Resp :=
  if errors.any (fun p => p e) then
    match e with
    | Exc.api a => (ctx, send_api_error ctx a)
    | _ => (ctx, Except.error (Exc.attrError "exception has no attribute name"))
  else (ctx, Except.error e)

/-- The body of the `wrapper` closure built by `catch_errors` (`fy.py` lines
232-245): run the preprocessors over the view, call the resulting function,
build the response, run the finalizers; every step is inside the `try`, and a
raised exception is filtered by `handle_error`. The preprocessor and finalizer
lists are the values `_apify` holds at request time. -/
def catch_wrapper (errors : List (Exc → Bool)) (pre : List PreFn)
    (fin : List FinFn) (fn : View) (env : Env) (ctx : Ctx) :
    Ctx × Except Exc Resp :=
  match apply_all_pre pre env ctx fn with
  | (ctx1, Except.error e) => handle_error errors ctx1 e
  | (ctx1, Except.ok func) =>
      match func () with
      | Except.error e => handle_error errors ctx1 e
      | Except.ok raw =>
          match send_api_response ctx1 raw with
          | Except.error e => handle_error errors ctx1 e
          | Except.ok res =>
              match apply_all_fin fin res with
              | Except.error e => handle_error errors ctx1 e
              | Except.ok res2 => (ctx1, Except.ok res2)

/-- The structure of a Python function object as `route` sees it: either a
plain view, or a `catch_errors` wrapper around another function body. Each
wrapper layer applies the preprocessor chain once per invocation
(`catch_wrapper` runs `apply_all_pre` exactly once). -/
inductive FuncBody where
  | view : View → FuncBody
  | wrapped : List (Exc → Bool) → FuncBody → FuncBody

/-- How many `catch_errors` layers a function body carries; each layer runs the
preprocessor chain once per request. -/
def wrapLayers : FuncBody → Nat
  | FuncBody.view _ => 0
  | FuncBody.wrapped _ b => wrapLayers b + 1

/-- A Python function object together with its `is_api_method` marker
(`hasattr(fn, 'is_api_method')`). -/
structure PyFunc where
  is_api_method : Bool
  body : FuncBody

/-- A plain view function, as passed to `route` the first time: no marker. -/
def mk_view_func (v : View) : PyFunc :=
  { is_api_method := false, body := FuncBody.view v }

/-- `catch_errors` (`fy.py` lines 214-246) applied to a function: decoration
asserts that the error catch-set is non-empty, then wraps the function body; the
wrapper's runtime behavior is `catch_wrapper`. -/
def catch_errors (errors : List (Exc → Bool)) (b : FuncBody) :
    Except Exc FuncBody :=
  if errors.isEmpty then
    Except.error (Exc.assertion "Some dumbas forgot to specify errors to catch?")
  else Except.ok (FuncBody.wrapped errors b)

/-- The `Apify` extension object: the preprocessor list, the finalizer list and
the blueprint's accumulated url rules. (The serializer registry is NOT here: in
`fy.py` `serializers` is a class attribute, modelled separately below.) -/
structure ApifyObj where
  preprocessor_funcs : List PreFn
  finalizer_funcs : List FinFn
  blueprint : List (String × PyFunc)

/-- `Apify.__init__` (`fy.py` lines 65-80):
`preprocessor_funcs = list(chain((preprocess_api_response,), preprocessor_funcs or ()))`
and `finalizer_funcs = finalizer_funcs or []`. -/
def Apify.init (pre_arg : Option (List PreFn)) (fin_arg : Option (List FinFn)) :
    ApifyObj :=
  { preprocessor_funcs := preprocess_api_response :: pre_arg.getD []
  , finalizer_funcs := fin_arg.getD []
  , blueprint := [] }

/-- `Apify.preprocessor` (`fy.py` lines 182-195): append and return the
function. -/
def Apify.preprocessor (a : ApifyObj) (fn : PreFn) : ApifyObj × PreFn :=
  ({ a with preprocessor_funcs := a.preprocessor_funcs ++ [fn] }, fn)

/-- `Apify.finalizer` (`fy.py` lines 197-211): append and return the
function. -/
def Apify.finalizer (a : ApifyObj) (fn : FinFn) : ApifyObj × FinFn :=
  ({ a with finalizer_funcs := a.finalizer_funcs ++ [fn] }, fn)

/-- `Apify.route` (`fy.py` lines 125-161): when the view has no
`is_api_method` attribute, wrap it with `catch_errors(ApiError)` and set the
marker; otherwise leave it as is; in both cases add the url rule with the
resulting function and return it. -/
def Apify.route (a : ApifyObj) (rule : String) (f : PyFunc) :
    Except Exc (ApifyObj × PyFunc) :=
  if f.is_api_method then
    Except.ok ({ a with blueprint := a.blueprint ++ [(rule, f)] }, f)
  else
    match catch_errors [isApiError] f.body with
    | Except.ok b =>
        let f' : PyFunc := { is_api_method := true, body := b }
        Except.ok ({ a with blueprint := a.blueprint ++ [(rule, f')] }, f')
    | Except.error e => Except.error e

/-- The `Apify` objects reachable through the public interface: construction
followed by any sequence of `preprocessor`, `finalizer` and `route` calls.
(`serializer` mutates the class-level dict, not the object.) -/
inductive Reachable : ApifyObj → Prop where
  | init : ∀ p f, Reachable (Apify.init p f)
  | pre : ∀ a fn, Reachable a → Reachable (Apify.preprocessor a fn).1
  | fin : ∀ a fn, Reachable a → Reachable (Apify.finalizer a fn).1
  | route : ∀ a rule f a' f', Reachable a →
      Apify.route a rule f = Except.ok (a', f') → Reachable a'

/-- The heap of dict objects, addressed by reference: models that Python dicts
are mutable objects shared by reference. -/
structure PyWorld where
  heap : List Registry
  cls_serializers_ref : Nat

/-- The initial world: one dict object on the heap, the class-level
`Apify.serializers` seed, referenced by the class attribute. -/
def initial_world : PyWorld :=
  { heap := [class_serializers_seed], cls_serializers_ref := 0 }

/-- An `Apify` instance as attribute storage: the entries of its `__dict__`
that shadow class attributes, mapping an attribute to a heap reference.
`__init__` assigns `url_prefix`, `preprocessor_funcs`, `finalizer_funcs` and
`app`, never `serializers`, so the instance dict holds no `serializers` key. -/
structure ApifyInstance where
  attrs : List (String × Nat)
  deriving DecidableEq

/-- A freshly constructed instance: no instance-level `serializers`
attribute. -/
def Apify.new_instance : ApifyInstance := { attrs := [] }

/-- Python attribute resolution for `self.serializers`: the instance
`__dict__` first, falling back to the class attribute. -/
def getattr_serializers_ref (w : PyWorld) (inst : ApifyInstance) : Nat :=
  match dictGet inst.attrs "serializers" with
  | some r => r
  | none => w.cls_serializers_ref

/-- The registry an instance sees through `self.serializers`. -/
def read_serializers (w : PyWorld) (inst : ApifyInstance) : Registry :=
  (w.heap.get? (getattr_serializers_ref w inst)).getD []

/-- `Apify.serializer` (`fy.py` lines 163-180): the inner `wrapper` performs
`self.serializers[mimetype] = fn` — an item assignment on the dict object that
attribute resolution yields (the class-level dict, since no instance ever
shadows it) — and returns `fn` unchanged. -/
def Apify.serializer (w : PyWorld) (inst : ApifyInstance) (m : String)
    (fn : Serializer) : PyWorld × Serializer :=
  let r := getattr_serializers_ref w inst
  ({ w with heap := w.heap.set r (dictSet ((w.heap.get? r).getD []) m fn) }, fn)

/-- A concrete view for witnesses: the test suite's
`lambda: dict(status='api call done')`. -/
def viewOk : View := fun _ =>
  Except.ok (RawResponse.bare (Json.obj [("status", Json.str "api call done")]))

/-- A concrete caller-defined error, as in the repository's finalizer-error
test: code 418. -/
def imATeapot : ApiErr :=
  { cls := "ImATeapot"
  , name := "I'm a teapot"
  , code := 418
  , description := "teapot" }

/-- A concrete finalizer that raises a caller-defined `ApiError` subtype. -/
def teapot_finalizer : FinFn := fun _ => Except.error (Exc.api imATeapot)

/-- A concrete serializer registered by a caller for witnesses. -/
def xml_fn : Serializer := fun _ => "<xml/>"

/-- A first concrete `Apify` instance; the extra attribute only distinguishes
it from `inst_two`, neither shadows `serializers`. -/
def inst_one : ApifyInstance := { attrs := [("app_ref", 1)] }

/-- A second, distinct concrete `Apify` instance. -/
def inst_two : ApifyInstance := { attrs := [("app_ref", 2)] }

/-- Dict update is last-write-wins: after `d[k] = v`, looking up `k` yields
`v` regardless of any previous entry. -/
theorem dictGet_dictSet_self {α : Type} (d : List (String × α)) (k : String)
    (v : α) : dictGet (dictSet d k v) k = some v := by
  induction d with
  | nil => simp [dictGet, dictSet]
  | cons kv rest ih =>
      obtain ⟨k', v'⟩ := kv
      by_cases h : k' = k
      · simp [dictGet, dictSet, h]
      · simp [dictGet, dictSet, h, ih]

/-- `Apify.route` never changes the preprocessor list: it only wraps the view
and extends the blueprint. -/
theorem route_preserves_preprocessors (a : ApifyObj) (rule : String)
    (f : PyFunc) (a' : ApifyObj) (f' : PyFunc)
    (h : Apify.route a rule f = Except.ok (a', f')) :
    a'.preprocessor_funcs = a.preprocessor_funcs := by
  cases hf : f.is_api_method with
  | true =>
      simp [Apify.route, hf] at h
      obtain ⟨h1, _⟩ := h
      subst h1
      rfl
  | false =>
      simp [Apify.route, hf, catch_errors] at h
      obtain ⟨h1, _⟩ := h
      subst h1
      rfl

/-- C3: every error in the catch-set reaching the ERROR state is translated to
the payload `(error := name, message := description)`, serialized through
`send_api_response` with the context's serializer and mimetype, and the
response status is the error's own code. -/
theorem send_api_error_builds_error_envelope (ctx : Ctx) (a : ApiErr)
    (s : Serializer) (m : String)
    (hs : ctx.g_serializer = some s) (hm : ctx.g_mimetype = some m) :
    send_api_error ctx a =
      Except.ok
        { body := s (error_payload a)
        , status_code := a.code
        , headers := []
        , mimetype := m }
    ∧ error_payload a =
        Json.obj [("error", Json.str a.name), ("message", Json.str a.description)]
    ∧ send_api_error ctx a =
        send_api_response ctx (RawResponse.withCode (error_payload a) a.code) := by
  refine ⟨?_, rfl, rfl⟩
  simp [send_api_error, send_api_response, unpack_response, hm, hs]

/-- Witness for C3 at a concrete context and the `ApiUnauthorized` error. -/
theorem send_api_error_builds_error_envelope_witness :
    send_api_error
        { g_mimetype := some "application/json", g_serializer := some to_json }
        apiUnauthorized =
      Except.ok
        { body := to_json (error_payload apiUnauthorized)
        , status_code := apiUnauthorized.code
        , headers := []
        , mimetype := "application/json" } :=
  (send_api_error_builds_error_envelope
    { g_mimetype := some "application/json", g_serializer := some to_json }
    apiUnauthorized to_json "application/json" rfl rfl).1

/-- C4: `apply_all` is the left-to-right fold over the registered list, both in
its pure form and in the exception-aware forms the pipeline uses for
preprocessors and finalizers; in particular `[p1, p2]` applies `p1` first. -/
theorem apply_all_is_left_fold :
    (∀ {α : Type} (funcs : List (α → α)) (arg : α),
        apply_all funcs arg = funcs.foldl (fun acc f => f acc) arg)
    ∧ (∀ {α : Type} (p1 p2 : α → α) (arg : α),
        apply_all [p1, p2] arg = p2 (p1 arg))
    ∧ (∀ (ps : List (View → View)) (env : Env) (ctx : Ctx) (v : View),
        apply_all_pre
            (ps.map (fun p => fun _ c arg => (c, Except.ok (p arg)))) env ctx v =
          (ctx, Except.ok (apply_all ps v)))
    ∧ (∀ (fs : List (Resp → Resp)) (r : Resp),
        apply_all_fin (fs.map (fun f => fun res => Except.ok (f res))) r =
          Except.ok (apply_all fs r)) := by
  refine ⟨?_, ?_, ?_, ?_⟩
  · intro α funcs
    induction funcs with
    | nil => intro arg; rfl
    | cons f fs ih => intro arg; simpa [apply_all] using ih (f arg)
  · intro α p1 p2 arg; rfl
  · intro ps
    induction ps with
    | nil => intro env ctx v; rfl
    | cons p ps ih =>
        intro env ctx v
        simpa [apply_all_pre, apply_all] using ih env ctx (p v)
  · intro fs
    induction fs with
    | nil => intro r; rfl
    | cons f fs ih =>
        intro r
        simpa [apply_all_fin, apply_all] using ih (f r)

/-- C9: looking up the default serializer fails with a `RuntimeError`-style
fatal configuration error — a kind outside the `ApiError` hierarchy, hence
distinct from NotAcceptable — exactly when the configured default mimetype has
no registered serializer; otherwise it returns the mimetype with its
function. -/
theorem get_default_serializer_config_error (reg : Registry) (dm : String) :
    (dictGet reg dm = none →
      get_default_serializer reg dm =
          Except.error (Exc.runtime "no serializer registered for default mimetype")
        ∧ isApiError
            (Exc.runtime "no serializer registered for default mimetype") = false)
    ∧ (∀ fn, dictGet reg dm = some fn →
        get_default_serializer reg dm = Except.ok (dm, fn)) := by
  constructor
  · intro h
    exact ⟨by simp [get_default_serializer, h], rfl⟩
  · intro fn h
    simp [get_default_serializer, h]

/-- Witness for C9: with the seed registry, `nosuch/mimetype` as default fails
with the fatal non-`ApiError` kind, while `application/json` succeeds. -/
theorem get_default_serializer_config_error_witness :
    (get_default_serializer class_serializers_seed "nosuch/mimetype" =
        Except.error (Exc.runtime "no serializer registered for default mimetype")
      ∧ isApiError
          (Exc.runtime "no serializer registered for default mimetype") = false)
    ∧ get_default_serializer class_serializers_seed "application/json" =
        Except.ok ("application/json", to_json) :=
  ⟨(get_default_serializer_config_error class_serializers_seed "nosuch/mimetype").1 rfl,
   (get_default_serializer_config_error class_serializers_seed "application/json").2 to_json rfl⟩

/-- C10: decorating with an empty catch-set fails the decoration-time assert;
with a non-empty catch-set decoration always succeeds, and `Apify.route` —
which always passes the singleton catch-set `ApiError` — never hits the
assertion branch. -/
theorem catch_errors_empty_asserts :
    (∀ b, catch_errors [] b =
        Except.error (Exc.assertion "Some dumbas forgot to specify errors to catch?"))
    ∧ (∀ (errors : List (Exc → Bool)) (b : FuncBody), errors ≠ [] →
        catch_errors errors b = Except.ok (FuncBody.wrapped errors b))
    ∧ (∀ (a : ApifyObj) (rule : String) (f : PyFunc),
        ∃ r, Apify.route a rule f = Except.ok r) := by
  refine ⟨fun b => rfl, ?_, ?_⟩
  · intro errors b h
    simp [catch_errors, h]
  · intro a rule f
    cases hf : f.is_api_method with
    | true =>
        exact ⟨({ a with blueprint := a.blueprint ++ [(rule, f)] }, f),
          by simp [Apify.route, hf]⟩
    | false =>
        exact ⟨({ a with blueprint := a.blueprint ++
              [(rule, { is_api_method := true
                      , body := FuncBody.wrapped [isApiError] f.body })] },
            { is_api_method := true, body := FuncBody.wrapped [isApiError] f.body }),
          by simp [Apify.route, hf, catch_errors]⟩

/-- Witness for C10 at concrete inputs: the empty catch-set asserts, the
catch-set `route` passes succeeds. -/
theorem catch_errors_empty_asserts_witness :
    catch_errors [] (FuncBody.view viewOk) =
        Except.error (Exc.assertion "Some dumbas forgot to specify errors to catch?")
      ∧ catch_errors [isApiError] (FuncBody.view viewOk) =
          Except.ok (FuncBody.wrapped [isApiError] (FuncBody.view viewOk)) :=
  ⟨catch_errors_empty_asserts.1 (FuncBody.view viewOk),
   catch_errors_empty_asserts.2.1 [isApiError] (FuncBody.view viewOk) (by simp)⟩

/-- C1: when the accept preferences match no registered mimetype (including no
Accept header, `accept_best = none`), the pipeline first stores the default
mimetype/serializer pair in the request context, then still raises
NotAcceptable, so the caught error renders as a 406 response whose content type
is the configured default mimetype; the view's own payload is never served. -/
theorem notacceptable_renders_default_406 (reg : Registry) (dm : String)
    (dser : Serializer) (accept : Option String) (rest : List PreFn)
    (fins : List FinFn) (fn : View) (ctx : Ctx)
    (hmiss : ∀ m, accept = some m → dictGet reg m = none)
    (hdef : dictGet reg dm = some dser) :
    catch_wrapper [isApiError] (preprocess_api_response :: rest) fins fn
        { registry := reg, default_mimetype := dm, accept_best := accept } ctx =
      ({ g_mimetype := some dm, g_serializer := some dser },
       Except.ok
         { body := dser (error_payload apiNotAcceptable)
         , status_code := 406
         , headers := []
         , mimetype := dm }) := by
  have hgs : get_serializer reg accept =
      Except.error (Exc.api apiNotAcceptable) := by
    cases accept with
    | none => rfl
    | some m => simp [get_serializer, hmiss m rfl]
  simp [catch_wrapper, apply_all_pre, preprocess_api_response, hgs,
        get_default_serializer, hdef, handle_error, isApiError, send_api_error,
        send_api_response, unpack_response, apiNotAcceptable]

/-- Witness for C1: the seed registry, the default mimetype `application/json`
and a request with no Accept header produce the 406 envelope in the default
mimetype. -/
theorem notacceptable_renders_default_406_witness :
    catch_wrapper [isApiError] [preprocess_api_response] [] viewOk
        { registry := class_serializers_seed
        , default_mimetype := "application/json"
        , accept_best := none } Ctx.empty =
      ({ g_mimetype := some "application/json", g_serializer := some to_json },
       Except.ok
         { body := to_json (error_payload apiNotAcceptable)
         , status_code := 406
         , headers := []
         , mimetype := "application/json" }) :=
  notacceptable_renders_default_406 class_serializers_seed "application/json"
    to_json none [] [] viewOk Ctx.empty
    (fun _ h => Option.noConfusion h) rfl

/-- C2: when the view invocation succeeded and a response was built, a
finalizer raising an error in the catch-set discards the built response and the
final result is the error envelope with that error's own code and description;
an error outside the catch-set propagates uncaught. -/
theorem finalizer_error_replaces_response (pre : List PreFn) (fins : List FinFn)
    (fn : View) (env : Env) (ctx ctx1 : Ctx) (func : View) (raw : RawResponse)
    (res : Resp) (e : Exc) (s : Serializer) (m : String)
    (hpre : apply_all_pre pre env ctx fn = (ctx1, Except.ok func))
    (hcall : func () = Except.ok raw)
    (hm : ctx1.g_mimetype = some m) (hs : ctx1.g_serializer = some s)
    (hres : send_api_response ctx1 raw = Except.ok res)
    (hfin : apply_all_fin fins res = Except.error e) :
    (∀ a, e = Exc.api a →
      catch_wrapper [isApiError] pre fins fn env ctx =
        (ctx1, Except.ok
          { body := s (error_payload a)
          , status_code := a.code
          , headers := []
          , mimetype := m }))
    ∧ (isApiError e = false →
      catch_wrapper [isApiError] pre fins fn env ctx = (ctx1, Except.error e)) := by
  have key : catch_wrapper [isApiError] pre fins fn env ctx =
      handle_error [isApiError] ctx1 e := by
    simp only [catch_wrapper, hpre, hcall, hres, hfin]
  constructor
  · intro a ha
    subst ha
    rw [key]
    simp [handle_error, isApiError, send_api_error, send_api_response,
          unpack_response, hm, hs]
  · intro ha
    rw [key]
    simp [handle_error, ha]

/-- Witness for C2: a successful JSON-negotiated call whose single finalizer
raises a caller-defined 418 error ends in the 418 envelope, not the built 200
response. -/
theorem finalizer_error_replaces_response_witness :
    catch_wrapper [isApiError] [preprocess_api_response] [teapot_finalizer]
        viewOk
        { registry := class_serializers_seed
        , default_mimetype := "application/json"
        , accept_best := some "application/json" } Ctx.empty =
      ({ g_mimetype := some "application/json", g_serializer := some to_json },
       Except.ok
         { body := to_json (error_payload imATeapot)
         , status_code := imATeapot.code
         , headers := []
         , mimetype := "application/json" }) :=
  (finalizer_error_replaces_response [preprocess_api_response] [teapot_finalizer]
      viewOk
      { registry := class_serializers_seed
      , default_mimetype := "application/json"
      , accept_best := some "application/json" }
      Ctx.empty
      { g_mimetype := some "application/json", g_serializer := some to_json }
      viewOk
      (RawResponse.bare (Json.obj [("status", Json.str "api call done")]))
      { body := to_json (Json.obj [("status", Json.str "api call done")])
      , status_code := 200
      , headers := []
      , mimetype := "application/json" }
      (Exc.api imATeapot) to_json "application/json"
      rfl rfl rfl rfl rfl rfl).1 imATeapot rfl

/-- C5: the first `route` application wraps the plain view in the
error-catching pipeline and sets the `is_api_method` marker; a further
application detects the marker, skips re-wrapping (the function keeps exactly
one wrapper layer, so the preprocessor chain runs once per request) and
registers the very same wrapped function. -/
theorem route_wrapping_idempotent (a : ApifyObj) (rule1 rule2 : String)
    (v : View) :
    ∃ a1 f1, Apify.route a rule1 (mk_view_func v) = Except.ok (a1, f1)
      ∧ f1.is_api_method = true
      ∧ f1.body = FuncBody.wrapped [isApiError] (FuncBody.view v)
      ∧ wrapLayers f1.body = 1
      ∧ Apify.route a1 rule2 f1 =
          Except.ok ({ a1 with blueprint := a1.blueprint ++ [(rule2, f1)] }, f1) := by
  refine ⟨{ a with blueprint := a.blueprint ++
        [(rule1, { is_api_method := true
                 , body := FuncBody.wrapped [isApiError] (FuncBody.view v) })] },
      { is_api_method := true
      , body := FuncBody.wrapped [isApiError] (FuncBody.view v) },
      ?_, rfl, rfl, rfl, ?_⟩
  · simp [Apify.route, mk_view_func, catch_errors]
  · simp [Apify.route]

/-- C6: every `Apify` object reachable through the public interface keeps the
resolver-selection preprocessor `preprocess_api_response` as the first element
of its preprocessor list — it is placed at position 0 by `__init__` and
`preprocessor` only appends. -/
theorem resolver_preprocessor_always_first (a : ApifyObj) (h : Reachable a) :
    a.preprocessor_funcs.head? = some preprocess_api_response
    ∧ ∀ fn, (Apify.preprocessor a fn).1.preprocessor_funcs =
        a.preprocessor_funcs ++ [fn] := by
  refine ⟨?_, fun fn => rfl⟩
  induction h with
  | init p f => rfl
  | pre a fn ha ih =>
      cases hl : a.preprocessor_funcs with
      | nil => rw [hl] at ih; exact Option.noConfusion ih
      | cons y t =>
          rw [hl] at ih
          simpa [Apify.preprocessor, hl] using ih
  | fin a fn ha ih => simpa [Apify.finalizer] using ih
  | route a rule f a' f' ha hr ih =>
      rw [route_preserves_preprocessors a rule f a' f' hr]
      exact ih

/-- Witness for C6 at the freshly constructed object. -/
theorem resolver_preprocessor_always_first_witness :
    (Apify.init none none).preprocessor_funcs.head? =
      some preprocess_api_response :=
  (resolver_preprocessor_always_first (Apify.init none none)
    (Reachable.init none none)).1

/-- C7: `serializer(mimetype)` stores the function under that key with
last-registration-wins semantics, never fails, returns the function unchanged,
and a subsequent request accepting that mimetype is served by the newly
registered function. -/
theorem serializer_registration_overwrites_and_serves (w : PyWorld)
    (inst : ApifyInstance) (m dm : String) (fn : Serializer) (payload : Json)
    (ctx : Ctx)
    (hr : getattr_serializers_ref w inst < w.heap.length) :
    (Apify.serializer w inst m fn).2 = fn
    ∧ dictGet (read_serializers (Apify.serializer w inst m fn).1 inst) m = some fn
    ∧ catch_wrapper [isApiError] [preprocess_api_response] []
        (fun _ => Except.ok (RawResponse.bare payload))
        { registry := read_serializers (Apify.serializer w inst m fn).1 inst
        , default_mimetype := dm
        , accept_best := some m } ctx =
      ({ g_mimetype := some m, g_serializer := some fn },
       Except.ok
         { body := fn payload
         , status_code := 200
         , headers := []
         , mimetype := m }) := by
  have hread : read_serializers (Apify.serializer w inst m fn).1 inst =
      dictSet ((w.heap.get? (getattr_serializers_ref w inst)).getD []) m fn := by
    show ((w.heap.set (getattr_serializers_ref w inst)
          (dictSet ((w.heap.get? (getattr_serializers_ref w inst)).getD []) m fn)).get?
          (getattr_serializers_ref w inst)).getD [] = _
    rw [List.get?_eq_getElem?, List.getElem?_set_eq_of_lt _ hr]
    rfl
  have hget : dictGet (read_serializers (Apify.serializer w inst m fn).1 inst) m =
      some fn := by
    rw [hread]; exact dictGet_dictSet_self _ m fn
  refine ⟨rfl, hget, ?_⟩
  simp [catch_wrapper, apply_all_pre, preprocess_api_response, get_serializer,
        hget, apply_all_fin, send_api_response, unpack_response]

/-- Witness for C7: registering an `application/xml` serializer on a fresh
instance over the seeded world, then serving a request accepting
`application/xml`, uses the new function. -/
theorem serializer_registration_overwrites_and_serves_witness :
    (Apify.serializer initial_world Apify.new_instance "application/xml" xml_fn).2 = xml_fn
    ∧ dictGet
        (read_serializers
          (Apify.serializer initial_world Apify.new_instance "application/xml" xml_fn).1
          Apify.new_instance) "application/xml" = some xml_fn :=
  ⟨(serializer_registration_overwrites_and_serves initial_world
      Apify.new_instance "application/xml" "application/json" xml_fn Json.null
      Ctx.empty (by decide)).1,
   (serializer_registration_overwrites_and_serves initial_world
      Apify.new_instance "application/xml" "application/json" xml_fn Json.null
      Ctx.empty (by decide)).2.1⟩

/-- C8 counterexample: the claim "registering a serializer on one `Apify`
instance leaves the other instance's registry unchanged" is false — after
registering `application/xml` through `inst_one`, the distinct instance
`inst_two` sees the new entry, which it did not see before. -/
theorem serializer_registry_shared_counterexample :
    dictGet
        (read_serializers
          (Apify.serializer initial_world inst_one "application/xml" xml_fn).1
          inst_two) "application/xml" = some xml_fn
    ∧ dictGet (read_serializers initial_world inst_two) "application/xml" = none
    ∧ inst_one ≠ inst_two := by
  refine ⟨rfl, rfl, by decide⟩

/-- C8 amended: `serializers` is a class attribute of `Apify`, so the registry
is one dict object shared by every instance whose `__dict__` does not shadow it
(instances built by `__init__` never do): registering through one instance is
visible through any other. -/
theorem serializer_registry_class_shared (w : PyWorld)
    (i1 i2 : ApifyInstance) (m : String) (fn : Serializer)
    (h1 : dictGet i1.attrs "serializers" = none)
    (h2 : dictGet i2.attrs "serializers" = none)
    (hr : w.cls_serializers_ref < w.heap.length) :
    dictGet (read_serializers (Apify.serializer w i1 m fn).1 i2) m = some fn := by
  have e1 : getattr_serializers_ref w i1 = w.cls_serializers_ref := by
    simp [getattr_serializers_ref, h1]
  have hread : read_serializers (Apify.serializer w i1 m fn).1 i2 =
      dictSet ((w.heap.get? w.cls_serializers_ref).getD []) m fn := by
    simp [read_serializers, Apify.serializer, getattr_serializers_ref, h1, h2,
          e1, List.getElem?_set_eq_of_lt _ hr]
  rw [hread]
  exact dictGet_dictSet_self _ m fn

/-- Witness for the amended C8 at concrete distinct instances and a distinct
mimetype. -/
theorem serializer_registry_class_shared_witness :
    dictGet
        (read_serializers
          (Apify.serializer initial_world inst_one "application/x-custom" xml_fn).1
          inst_two) "application/x-custom" = some xml_fn :=
  serializer_registry_class_shared initial_world inst_one inst_two
    "application/x-custom" xml_fn rfl rfl (by decide)

end Apifyfy
